import Mathlib

/-!
# Verification of `awsmfunc/types/placebo.py`

A shallow embedding of the tone-mapping options module: the closed
enumerations (`PlaceboColorSpace`, `PlaceboTonemapFunction`,
`PlaceboTonemapFunctionName`, `PlaceboGamutMapping`,
`PlaceboHdrMetadataType`), the immutable options bundle
`PlaceboTonemapOpts` (a Python `NamedTuple`), and its operations
`with_static_peak_detect`, `vsplacebo_dict`, `is_dovi_src`,
`is_hdr10_src`, `is_sdr_target`.

Modelling conventions:
* Python `IntEnum` members are inductive constructors together with their
  integer codes (`toInt`); the `str`-valued enum carries `toStr`.
* Python `float` fields are modelled as `ℚ`.  The only floating-point
  arithmetic the module ever performs is the constant `203.0 / 1000`
  evaluated once at class-definition time; IEEE-754 double division is
  correctly rounded, so `203.0 / 1000` and the literal `0.203` denote the
  same double and the rational model is exact on every value the module
  computes.
* A Python `dict` built by insertion and filtered by `is not None` is an
  association list `List (String × PValue)` in insertion order; dict
  values (ints, strings, floats, bools) live in the sum type `PValue`.
* `Optional[...]` fields are `Option` fields, `None` being `none`.
-/

namespace AwsmPlacebo

inductive PlaceboColorSpace
  | SDR
  | HDR10
  | HLG
  | DOVI
deriving DecidableEq, Repr

def PlaceboColorSpace.toInt : PlaceboColorSpace → Int
  | .SDR => 0
  | .HDR10 => 1
  | .HLG => 2
  | .DOVI => 3

inductive PlaceboTonemapFunction
  | Auto
  | Clip
  | ST2094_40
  | ST2094_10
  | BT2390
  | BT2446a
  | Spline
  | Reinhard
  | Mobius
  | Hable
  | Gamma
  | Linear
deriving DecidableEq, Repr

def PlaceboTonemapFunction.toInt : PlaceboTonemapFunction → Int
  | .Auto => 0
  | .Clip => 1
  | .ST2094_40 => 2
  | .ST2094_10 => 3
  | .BT2390 => 4
  | .BT2446a => 5
  | .Spline => 6
  | .Reinhard => 7
  | .Mobius => 8
  | .Hable => 9
  | .Gamma => 10
  | .Linear => 11

inductive PlaceboTonemapFunctionName
  | Auto
  | Clip
  | ST2094_40
  | ST2094_10
  | BT2390
  | BT2446a
  | Spline
  | Reinhard
  | Mobius
  | Hable
  | Gamma
  | Linear
deriving DecidableEq, Repr

def PlaceboTonemapFunctionName.toStr : PlaceboTonemapFunctionName → String
  | .Auto => "auto"
  | .Clip => "clip"
  | .ST2094_40 => "st2094-40"
  | .ST2094_10 => "st2094-10"
  | .BT2390 => "bt2390"
  | .BT2446a => "bt2446a"
  | .Spline => "spline"
  | .Reinhard => "reinhard"
  | .Mobius => "mobius"
  | .Hable => "hable"
  | .Gamma => "gamma"
  | .Linear => "linear"

inductive PlaceboGamutMapping
  | Clip
  | Perceptual
  | Softclip
  | Relative
  | Saturation
  | Absolute
  | Desaturate
  | Darken
  | Highlight
  | Linear
deriving DecidableEq, Repr

def PlaceboGamutMapping.toInt : PlaceboGamutMapping → Int
  | .Clip => 0
  | .Perceptual => 1
  | .Softclip => 2
  | .Relative => 3
  | .Saturation => 4
  | .Absolute => 5
  | .Desaturate => 6
  | .Darken => 7
  | .Highlight => 8
  | .Linear => 9

inductive PlaceboHdrMetadataType
  | Any
  | PlNone
  | HDR10
  | HDR10Plus
  | CIE_Y
deriving DecidableEq, Repr

def PlaceboHdrMetadataType.toInt : PlaceboHdrMetadataType → Int
  | .Any => 0
  | .PlNone => 1
  | .HDR10 => 2
  | .HDR10Plus => 3
  | .CIE_Y => 4

/-- A value stored in the `vsplacebo_dict` mapping: Python ints (`IntEnum`
members are ints), strings (the `str` enum members), floats and bools. -/
inductive PValue
  | int (n : Int)
  | str (s : String)
  | rat (q : ℚ)
  | bool (b : Bool)
deriving DecidableEq, Repr

/-- The options bundle, `class PlaceboTonemapOpts(NamedTuple)`, fields in
source order with their construction defaults.

The source default for `dst_min` is written `dst_max / 1000`; a Python
`NamedTuple` field default is evaluated exactly once, when the class body
executes, at which point `dst_max` denotes the class-level default
`203.0`.  The instance default of `dst_min` is therefore the fixed number
`0.203`, whatever `dst_max` a particular construction supplies. -/
structure PlaceboTonemapOpts where
  source_colorspace : PlaceboColorSpace := .HDR10
  target_colorspace : PlaceboColorSpace := .SDR
  target_primaries : Option Int := none
  dst_max : ℚ := 203
  dst_min : ℚ := 203 / 1000
  peak_detect : Bool := true
  gamut_mapping : Option PlaceboGamutMapping := none
  tone_map_function : Option PlaceboTonemapFunction := none
  tone_map_function_s : Option PlaceboTonemapFunctionName := none
  tone_map_param : Option ℚ := none
  contrast_recovery : Option ℚ := none
  hdr_metadata_type : Option PlaceboHdrMetadataType := none
  use_dovi : Option Bool := none
  smoothing_period : Option ℚ := none
  scene_threshold_low : Option ℚ := none
  scene_threshold_high : Option ℚ := none
  percentile : Option ℚ := none
  show_clipping : Option Bool := none
  visualize_lut : Option Bool := none
  use_planestats : Bool := true
deriving DecidableEq, Repr

namespace PlaceboTonemapOpts

/-- `self._replace(smoothing_period=0, scene_threshold_low=0,
scene_threshold_high=0)`: the Python literal `0` is a set (non-`None`)
value of the optional field. -/
def with_static_peak_detect (self : PlaceboTonemapOpts) : PlaceboTonemapOpts :=
  { self with
    smoothing_period := some 0
    scene_threshold_low := some 0
    scene_threshold_high := some 0 }

/-- The `all_args` dict literal built inside `vsplacebo_dict`, in source
insertion order; `some` marks an always-present value, an optional field
contributes its own `Option` state. -/
def all_args (self : PlaceboTonemapOpts) : List (String × Option PValue) :=
  [ ("src_csp", some (.int self.source_colorspace.toInt)),
    ("dst_csp", some (.int self.target_colorspace.toInt)),
    ("dst_prim", self.target_primaries.map .int),
    ("dst_max", some (.rat self.dst_max)),
    ("dst_min", some (.rat self.dst_min)),
    ("dynamic_peak_detection", some (.bool self.peak_detect)),
    ("gamut_mapping", self.gamut_mapping.map (fun g => .int g.toInt)),
    ("tone_mapping_function", self.tone_map_function.map (fun f => .int f.toInt)),
    ("tone_mapping_function_s", self.tone_map_function_s.map (fun s => .str s.toStr)),
    ("tone_mapping_param", self.tone_map_param.map .rat),
    ("use_dovi", self.use_dovi.map .bool),
    ("smoothing_period", self.smoothing_period.map .rat),
    ("scene_threshold_low", self.scene_threshold_low.map .rat),
    ("scene_threshold_high", self.scene_threshold_high.map .rat),
    ("show_clipping", self.show_clipping.map .bool),
    ("percentile", self.percentile.map .rat),
    ("metadata", self.hdr_metadata_type.map (fun m => .int m.toInt)),
    ("visualize_lut", self.visualize_lut.map .bool),
    ("contrast_recovery", self.contrast_recovery.map .rat) ]

/-- `{k: v for k, v in all_args.items() if v is not None}`: keep, in
order, exactly the entries whose value is set. -/
def vsplacebo_dict (self : PlaceboTonemapOpts) : List (String × PValue) :=
  self.all_args.filterMap (fun kv => kv.2.map (fun v => (kv.1, v)))

/-- `self.source_colorspace == PlaceboColorSpace.DOVI` -/
def is_dovi_src (self : PlaceboTonemapOpts) : Bool :=
  decide (self.source_colorspace = PlaceboColorSpace.DOVI)

/-- `self.source_colorspace == PlaceboColorSpace.HDR10` -/
def is_hdr10_src (self : PlaceboTonemapOpts) : Bool :=
  decide (self.source_colorspace = PlaceboColorSpace.HDR10)

/-- `self.target_colorspace == PlaceboColorSpace.SDR` -/
def is_sdr_target (self : PlaceboTonemapOpts) : Bool :=
  decide (self.target_colorspace = PlaceboColorSpace.SDR)

end PlaceboTonemapOpts

/-- The fixed key list of `vsplacebo_dict`, in insertion order. -/
def vsplaceboKeys : List String :=
  [ "src_csp", "dst_csp", "dst_prim", "dst_max", "dst_min",
    "dynamic_peak_detection", "gamut_mapping", "tone_mapping_function",
    "tone_mapping_function_s", "tone_mapping_param", "use_dovi",
    "smoothing_period", "scene_threshold_low", "scene_threshold_high",
    "show_clipping", "percentile", "metadata", "visualize_lut",
    "contrast_recovery" ]

theorem all_args_keys (b : PlaceboTonemapOpts) :
    b.all_args.map Prod.fst = vsplaceboKeys := rfl

theorem vsplaceboKeys_nodup : vsplaceboKeys.Nodup := by decide

theorem lookup_filterMap_of_not_mem (k : String) :
    ∀ l : List (String × Option PValue), k ∉ l.map Prod.fst →
      (l.filterMap (fun kv => kv.2.map (fun v => (kv.1, v)))).lookup k = none := by
  intro l
  induction l with
  | nil => intro _; rfl
  | cons a t ih =>
    intro hk
    rw [List.map_cons, List.mem_cons, not_or] at hk
    obtain ⟨hka, hkt⟩ := hk
    obtain ⟨a1, a2⟩ := a
    cases a2 with
    | none => simpa [List.filterMap_cons] using ih hkt
    | some v =>
      rw [List.filterMap_cons]
      simp only [Option.map_some']
      rw [List.lookup_cons]
      have hb : (k == a1) = false := by
        simpa [beq_eq_false_iff_ne] using hka
      simp [hb, ih hkt]

theorem lookup_filterMap_nodup (k : String) :
    ∀ l : List (String × Option PValue), (l.map Prod.fst).Nodup →
      (l.filterMap (fun kv => kv.2.map (fun v => (kv.1, v)))).lookup k =
        (l.lookup k).bind id := by
  intro l
  induction l with
  | nil => intro _; rfl
  | cons a t ih =>
    intro hnd
    rw [List.map_cons, List.nodup_cons] at hnd
    obtain ⟨ha, hnd⟩ := hnd
    obtain ⟨a1, a2⟩ := a
    by_cases hk : k = a1
    · subst hk
      cases a2 with
      | none =>
        rw [List.filterMap_cons]
        simp only [Option.map_none']
        rw [lookup_filterMap_of_not_mem k t ha]
        simp [List.lookup_cons]
      | some v =>
        simp [List.filterMap_cons, List.lookup_cons]
    · have hb : (k == a1) = false := by
        simpa [beq_eq_false_iff_ne] using hk
      cases a2 with
      | none => simp [List.filterMap_cons, List.lookup_cons, hb, ih hnd]
      | some v => simp [List.filterMap_cons, List.lookup_cons, hb, ih hnd]

theorem mem_fst_filterMap (p : String × PValue) (l : List (String × Option PValue))
    (hp : p ∈ l.filterMap (fun kv => kv.2.map (fun v => (kv.1, v)))) :
    p.1 ∈ l.map Prod.fst := by
  rw [List.mem_filterMap] at hp
  obtain ⟨kv, hkv, he⟩ := hp
  cases h2 : kv.2 with
  | none => rw [h2] at he; simp at he
  | some v =>
    rw [h2] at he
    simp only [Option.map_some', Option.some.injEq] at he
    rw [← he]
    exact List.mem_map_of_mem Prod.fst hkv

theorem keys_filterMap_sublist :
    ∀ l : List (String × Option PValue),
      List.Sublist
        ((l.filterMap (fun kv => kv.2.map (fun v => (kv.1, v)))).map Prod.fst)
        (l.map Prod.fst) := by
  intro l
  induction l with
  | nil => simp
  | cons a t ih =>
    obtain ⟨a1, a2⟩ := a
    cases a2 with
    | none =>
      rw [List.filterMap_cons]
      simp only [Option.map_none', List.map_cons]
      exact ih.cons a1
    | some v =>
      rw [List.filterMap_cons]
      simp only [Option.map_some', List.map_cons]
      exact ih.cons₂ a1

/-- Dict lookup agrees with the state of the underlying `all_args` entry. -/
theorem vsplacebo_dict_lookup (b : PlaceboTonemapOpts) (k : String) :
    b.vsplacebo_dict.lookup k = (b.all_args.lookup k).bind id := by
  have hnd : (b.all_args.map Prod.fst).Nodup := by
    rw [all_args_keys]; exact vsplaceboKeys_nodup
  exact lookup_filterMap_nodup k b.all_args hnd

/-- C1: the claim fails on the code.  A bundle constructed with
`dst_max = 1000.0` and no explicit `dst_min` has `dst_min = 0.203` (the
default expression `dst_max / 1000` is evaluated once at class-definition
time, with the class-level `dst_max = 203.0`), so `dst_min` does not equal
the constructed bundle's `dst_max / 1000 = 1.0`. -/
theorem C1_dst_min_ignores_dst_max_override :
    ({ dst_max := 1000 } : PlaceboTonemapOpts).dst_min = 203 / 1000 ∧
      (({ dst_max := 1000 } : PlaceboTonemapOpts).dst_min =
        ({ dst_max := 1000 } : PlaceboTonemapOpts).dst_max / 1000 → False) :=
  ⟨rfl, fun h => by
    have h2 : (203 : ℚ) / 1000 = 1000 / 1000 := h
    norm_num at h2⟩

/-- C2: the default-constructed bundle's `vsplacebo_dict` is exactly
`{src_csp: 1 (HDR10), dst_csp: 0 (SDR), dst_max: 203.0, dst_min: 0.203,
dynamic_peak_detection: true}`, in insertion order, with no other keys. -/
theorem C2_default_dict_exact :
    ({} : PlaceboTonemapOpts).vsplacebo_dict =
      [ ("src_csp", .int 1), ("dst_csp", .int 0), ("dst_max", .rat 203),
        ("dst_min", .rat (203 / 1000)),
        ("dynamic_peak_detection", .bool true) ] := rfl

/-- C3: `with_static_peak_detect` returns a bundle whose three
scene-detection fields are set to `0` and every other field of which
equals the corresponding field of the receiver; the receiver is an
immutable value and the operation is a pure function, so it is
unchanged. -/
theorem C3_with_static_peak_detect_fields (b : PlaceboTonemapOpts) :
    b.with_static_peak_detect.smoothing_period = some 0 ∧
    b.with_static_peak_detect.scene_threshold_low = some 0 ∧
    b.with_static_peak_detect.scene_threshold_high = some 0 ∧
    b.with_static_peak_detect.source_colorspace = b.source_colorspace ∧
    b.with_static_peak_detect.target_colorspace = b.target_colorspace ∧
    b.with_static_peak_detect.target_primaries = b.target_primaries ∧
    b.with_static_peak_detect.dst_max = b.dst_max ∧
    b.with_static_peak_detect.dst_min = b.dst_min ∧
    b.with_static_peak_detect.peak_detect = b.peak_detect ∧
    b.with_static_peak_detect.gamut_mapping = b.gamut_mapping ∧
    b.with_static_peak_detect.tone_map_function = b.tone_map_function ∧
    b.with_static_peak_detect.tone_map_function_s = b.tone_map_function_s ∧
    b.with_static_peak_detect.tone_map_param = b.tone_map_param ∧
    b.with_static_peak_detect.contrast_recovery = b.contrast_recovery ∧
    b.with_static_peak_detect.hdr_metadata_type = b.hdr_metadata_type ∧
    b.with_static_peak_detect.use_dovi = b.use_dovi ∧
    b.with_static_peak_detect.percentile = b.percentile ∧
    b.with_static_peak_detect.show_clipping = b.show_clipping ∧
    b.with_static_peak_detect.visualize_lut = b.visualize_lut ∧
    b.with_static_peak_detect.use_planestats = b.use_planestats :=
  ⟨rfl, rfl, rfl, rfl, rfl, rfl, rfl, rfl, rfl, rfl, rfl, rfl, rfl, rfl,
    rfl, rfl, rfl, rfl, rfl, rfl⟩

/-- C4: for every bundle, `vsplacebo_dict` holds an entry for a field
exactly when the field is set, under the fixed external key, carrying the
unmodified value; the emitted keys all come from the fixed key list and
are pairwise distinct. -/
theorem C4_dict_entries_iff_set (b : PlaceboTonemapOpts) :
    b.vsplacebo_dict.lookup "src_csp" = some (.int b.source_colorspace.toInt) ∧
    b.vsplacebo_dict.lookup "dst_csp" = some (.int b.target_colorspace.toInt) ∧
    b.vsplacebo_dict.lookup "dst_prim" = b.target_primaries.map .int ∧
    b.vsplacebo_dict.lookup "dst_max" = some (.rat b.dst_max) ∧
    b.vsplacebo_dict.lookup "dst_min" = some (.rat b.dst_min) ∧
    b.vsplacebo_dict.lookup "dynamic_peak_detection" = some (.bool b.peak_detect) ∧
    b.vsplacebo_dict.lookup "gamut_mapping" =
      b.gamut_mapping.map (fun g => .int g.toInt) ∧
    b.vsplacebo_dict.lookup "tone_mapping_function" =
      b.tone_map_function.map (fun f => .int f.toInt) ∧
    b.vsplacebo_dict.lookup "tone_mapping_function_s" =
      b.tone_map_function_s.map (fun s => .str s.toStr) ∧
    b.vsplacebo_dict.lookup "tone_mapping_param" = b.tone_map_param.map .rat ∧
    b.vsplacebo_dict.lookup "use_dovi" = b.use_dovi.map .bool ∧
    b.vsplacebo_dict.lookup "smoothing_period" = b.smoothing_period.map .rat ∧
    b.vsplacebo_dict.lookup "scene_threshold_low" = b.scene_threshold_low.map .rat ∧
    b.vsplacebo_dict.lookup "scene_threshold_high" = b.scene_threshold_high.map .rat ∧
    b.vsplacebo_dict.lookup "show_clipping" = b.show_clipping.map .bool ∧
    b.vsplacebo_dict.lookup "percentile" = b.percentile.map .rat ∧
    b.vsplacebo_dict.lookup "metadata" =
      b.hdr_metadata_type.map (fun m => .int m.toInt) ∧
    b.vsplacebo_dict.lookup "visualize_lut" = b.visualize_lut.map .bool ∧
    b.vsplacebo_dict.lookup "contrast_recovery" = b.contrast_recovery.map .rat ∧
    (∀ p ∈ b.vsplacebo_dict, p.1 ∈ vsplaceboKeys) ∧
    (b.vsplacebo_dict.map Prod.fst).Nodup := by
  refine ⟨?_, ?_, ?_, ?_, ?_, ?_, ?_, ?_, ?_, ?_, ?_, ?_, ?_, ?_, ?_, ?_,
    ?_, ?_, ?_, ?_, ?_⟩
  case _ => exact (vsplacebo_dict_lookup b "src_csp").trans rfl
  case _ => exact (vsplacebo_dict_lookup b "dst_csp").trans rfl
  case _ => exact (vsplacebo_dict_lookup b "dst_prim").trans rfl
  case _ => exact (vsplacebo_dict_lookup b "dst_max").trans rfl
  case _ => exact (vsplacebo_dict_lookup b "dst_min").trans rfl
  case _ => exact (vsplacebo_dict_lookup b "dynamic_peak_detection").trans rfl
  case _ => exact (vsplacebo_dict_lookup b "gamut_mapping").trans rfl
  case _ => exact (vsplacebo_dict_lookup b "tone_mapping_function").trans rfl
  case _ => exact (vsplacebo_dict_lookup b "tone_mapping_function_s").trans rfl
  case _ => exact (vsplacebo_dict_lookup b "tone_mapping_param").trans rfl
  case _ => exact (vsplacebo_dict_lookup b "use_dovi").trans rfl
  case _ => exact (vsplacebo_dict_lookup b "smoothing_period").trans rfl
  case _ => exact (vsplacebo_dict_lookup b "scene_threshold_low").trans rfl
  case _ => exact (vsplacebo_dict_lookup b "scene_threshold_high").trans rfl
  case _ => exact (vsplacebo_dict_lookup b "show_clipping").trans rfl
  case _ => exact (vsplacebo_dict_lookup b "percentile").trans rfl
  case _ => exact (vsplacebo_dict_lookup b "metadata").trans rfl
  case _ => exact (vsplacebo_dict_lookup b "visualize_lut").trans rfl
  case _ => exact (vsplacebo_dict_lookup b "contrast_recovery").trans rfl
  case _ => exact fun p hp => mem_fst_filterMap p b.all_args hp
  case _ =>
    exact vsplaceboKeys_nodup.sublist (keys_filterMap_sublist b.all_args)

/-- C5: for every bundle (hence for all four colorspace values of each
relevant field), `is_dovi_src` is true iff the source colorspace is DOVI,
`is_hdr10_src` iff it is HDR10, and `is_sdr_target` iff the target
colorspace is SDR. -/
theorem C5_colorspace_predicates (b : PlaceboTonemapOpts) :
    (b.is_dovi_src = true ↔ b.source_colorspace = PlaceboColorSpace.DOVI) ∧
    (b.is_hdr10_src = true ↔ b.source_colorspace = PlaceboColorSpace.HDR10) ∧
    (b.is_sdr_target = true ↔ b.target_colorspace = PlaceboColorSpace.SDR) := by
  refine ⟨?_, ?_, ?_⟩ <;>
    simp [PlaceboTonemapOpts.is_dovi_src, PlaceboTonemapOpts.is_hdr10_src,
      PlaceboTonemapOpts.is_sdr_target]

/-- C6: for every optional field and every value of the field's type,
setting the field at construction and reading it back yields the same
value, and the value appears in `vsplacebo_dict` under the field's
documented external key. -/
theorem C6_optional_field_round_trip (n : Int) (g : PlaceboGamutMapping)
    (f : PlaceboTonemapFunction) (s : PlaceboTonemapFunctionName)
    (m : PlaceboHdrMetadataType) (q1 q2 q3 q4 q5 q6 : ℚ) (b1 b2 b3 : Bool) :
    (({ target_primaries := some n } : PlaceboTonemapOpts).target_primaries
        = some n ∧
      ({ target_primaries := some n } :
          PlaceboTonemapOpts).vsplacebo_dict.lookup "dst_prim"
        = some (.int n)) ∧
    (({ gamut_mapping := some g } : PlaceboTonemapOpts).gamut_mapping
        = some g ∧
      ({ gamut_mapping := some g } :
          PlaceboTonemapOpts).vsplacebo_dict.lookup "gamut_mapping"
        = some (.int g.toInt)) ∧
    (({ tone_map_function := some f } : PlaceboTonemapOpts).tone_map_function
        = some f ∧
      ({ tone_map_function := some f } :
          PlaceboTonemapOpts).vsplacebo_dict.lookup "tone_mapping_function"
        = some (.int f.toInt)) ∧
    (({ tone_map_function_s := some s } :
          PlaceboTonemapOpts).tone_map_function_s = some s ∧
      ({ tone_map_function_s := some s } :
          PlaceboTonemapOpts).vsplacebo_dict.lookup "tone_mapping_function_s"
        = some (.str s.toStr)) ∧
    (({ tone_map_param := some q1 } : PlaceboTonemapOpts).tone_map_param
        = some q1 ∧
      ({ tone_map_param := some q1 } :
          PlaceboTonemapOpts).vsplacebo_dict.lookup "tone_mapping_param"
        = some (.rat q1)) ∧
    (({ contrast_recovery := some q2 } : PlaceboTonemapOpts).contrast_recovery
        = some q2 ∧
      ({ contrast_recovery := some q2 } :
          PlaceboTonemapOpts).vsplacebo_dict.lookup "contrast_recovery"
        = some (.rat q2)) ∧
    (({ hdr_metadata_type := some m } : PlaceboTonemapOpts).hdr_metadata_type
        = some m ∧
      ({ hdr_metadata_type := some m } :
          PlaceboTonemapOpts).vsplacebo_dict.lookup "metadata"
        = some (.int m.toInt)) ∧
    (({ use_dovi := some b1 } : PlaceboTonemapOpts).use_dovi = some b1 ∧
      ({ use_dovi := some b1 } :
          PlaceboTonemapOpts).vsplacebo_dict.lookup "use_dovi"
        = some (.bool b1)) ∧
    (({ smoothing_period := some q3 } : PlaceboTonemapOpts).smoothing_period
        = some q3 ∧
      ({ smoothing_period := some q3 } :
          PlaceboTonemapOpts).vsplacebo_dict.lookup "smoothing_period"
        = some (.rat q3)) ∧
    (({ scene_threshold_low := some q4 } :
          PlaceboTonemapOpts).scene_threshold_low = some q4 ∧
      ({ scene_threshold_low := some q4 } :
          PlaceboTonemapOpts).vsplacebo_dict.lookup "scene_threshold_low"
        = some (.rat q4)) ∧
    (({ scene_threshold_high := some q5 } :
          PlaceboTonemapOpts).scene_threshold_high = some q5 ∧
      ({ scene_threshold_high := some q5 } :
          PlaceboTonemapOpts).vsplacebo_dict.lookup "scene_threshold_high"
        = some (.rat q5)) ∧
    (({ percentile := some q6 } : PlaceboTonemapOpts).percentile = some q6 ∧
      ({ percentile := some q6 } :
          PlaceboTonemapOpts).vsplacebo_dict.lookup "percentile"
        = some (.rat q6)) ∧
    (({ show_clipping := some b2 } : PlaceboTonemapOpts).show_clipping
        = some b2 ∧
      ({ show_clipping := some b2 } :
          PlaceboTonemapOpts).vsplacebo_dict.lookup "show_clipping"
        = some (.bool b2)) ∧
    (({ visualize_lut := some b3 } : PlaceboTonemapOpts).visualize_lut
        = some b3 ∧
      ({ visualize_lut := some b3 } :
          PlaceboTonemapOpts).vsplacebo_dict.lookup "visualize_lut"
        = some (.bool b3)) :=
  ⟨⟨rfl, rfl⟩, ⟨rfl, rfl⟩, ⟨rfl, rfl⟩, ⟨rfl, rfl⟩, ⟨rfl, rfl⟩, ⟨rfl, rfl⟩,
    ⟨rfl, rfl⟩, ⟨rfl, rfl⟩, ⟨rfl, rfl⟩, ⟨rfl, rfl⟩, ⟨rfl, rfl⟩, ⟨rfl, rfl⟩,
    ⟨rfl, rfl⟩, ⟨rfl, rfl⟩⟩

/-- C7: whatever the value of `use_planestats`, `vsplacebo_dict` contains
no entry for it: the key is absent, and every emitted key differs from
`use_planestats`. -/
theorem C7_use_planestats_excluded (b : PlaceboTonemapOpts) :
    b.vsplacebo_dict.lookup "use_planestats" = none ∧
    b.vsplacebo_dict.all (fun p => p.1 != "use_planestats") = true := by
  constructor
  · exact (vsplacebo_dict_lookup b "use_planestats").trans rfl
  · rw [List.all_eq_true]
    intro p hp
    have h1 : p.1 ∈ vsplaceboKeys := mem_fst_filterMap p b.all_args hp
    have h2 : ∀ x ∈ vsplaceboKeys, (x != "use_planestats") = true := by decide
    exact h2 p.1 h1

/-- C8: for every bundle with both the numeric and the string tone-map
function forms set — however inconsistent — `vsplacebo_dict` emits both
keys, each carrying its own field's value, with no reconciliation. -/
theorem C8_both_tonemap_forms_emitted (b : PlaceboTonemapOpts)
    (f : PlaceboTonemapFunction) (s : PlaceboTonemapFunctionName)
    (hf : b.tone_map_function = some f) (hs : b.tone_map_function_s = some s) :
    b.vsplacebo_dict.lookup "tone_mapping_function" = some (.int f.toInt) ∧
    b.vsplacebo_dict.lookup "tone_mapping_function_s" = some (.str s.toStr) := by
  constructor
  · rw [vsplacebo_dict_lookup]
    show b.tone_map_function.map (fun x => PValue.int x.toInt)
      = some (.int f.toInt)
    rw [hf]
    rfl
  · rw [vsplacebo_dict_lookup]
    show b.tone_map_function_s.map (fun x => PValue.str x.toStr)
      = some (.str s.toStr)
    rw [hs]
    rfl

/-- C8 witness: a concrete bundle with mutually inconsistent numeric
(`BT2390`) and string (`"hable"`) forms set emits both keys. -/
theorem C8_both_tonemap_forms_emitted_witness :
    ({ tone_map_function := some .BT2390, tone_map_function_s := some .Hable } :
        PlaceboTonemapOpts).vsplacebo_dict.lookup "tone_mapping_function"
      = some (.int PlaceboTonemapFunction.BT2390.toInt) ∧
    ({ tone_map_function := some .BT2390, tone_map_function_s := some .Hable } :
        PlaceboTonemapOpts).vsplacebo_dict.lookup "tone_mapping_function_s"
      = some (.str PlaceboTonemapFunctionName.Hable.toStr) :=
  C8_both_tonemap_forms_emitted _ .BT2390 .Hable rfl rfl

/-- C9: `with_static_peak_detect` is idempotent. -/
theorem C9_with_static_peak_detect_idempotent (b : PlaceboTonemapOpts) :
    b.with_static_peak_detect.with_static_peak_detect
      = b.with_static_peak_detect := rfl

/-- C10: after `with_static_peak_detect`, the three scene-detection keys
appear in `vsplacebo_dict` with value `0` (the forced `0` is set, not the
unset sentinel, so it is emitted). -/
theorem C10_static_variant_emits_zeros (b : PlaceboTonemapOpts) :
    b.with_static_peak_detect.vsplacebo_dict.lookup "smoothing_period"
      = some (.rat 0) ∧
    b.with_static_peak_detect.vsplacebo_dict.lookup "scene_threshold_low"
      = some (.rat 0) ∧
    b.with_static_peak_detect.vsplacebo_dict.lookup "scene_threshold_high"
      = some (.rat 0) := by
  refine ⟨?_, ?_, ?_⟩ <;> exact (vsplacebo_dict_lookup _ _).trans rfl

end AwsmPlacebo
